import Mathlib

/-!
Shallow embedding of `src/client/component/profile_infos.cpp` (boiii):
a peer-to-peer profile-metadata synchronization subsystem.

Machine integers are modelled as `Nat` (bit patterns; `int32_t` is its
unsigned 32-bit pattern, `uint64_t` a `Nat`).  Bytes are `Nat` values,
little-endian on the x64 target the code compiles for.  Side effects
(network sends, registry lock acquire/release, registry writes, scheduler
arming) are reified as explicit event traces so that ordering and
critical-section claims can be stated.
-/

namespace profile_infos

/-- Little-endian byte encoding of `v` into `w` bytes (as `memcpy` of a
`w`-byte integer does on the x64 target). -/
def toBytesLE : Nat → Nat → List Nat
  | 0, _ => []
  | w + 1, v => v % 256 :: toBytesLE w (v / 256)

/-- Little-endian decoding of a byte list into a natural number (the bit
pattern `memcpy` reconstructs). -/
def fromBytesLE : List Nat → Nat
  | [] => 0
  | b :: bs => b % 256 + 256 * fromBytesLE bs

/-- Structure `profile_info` from `profile_infos.hpp`: a 4-byte version tag
(`int32_t`, modelled by its unsigned 32-bit pattern) plus an opaque byte
payload `ddl` (`std::string`, modelled as a byte list). -/
structure profile_info where
  version : Nat
  ddl : List Nat
deriving DecidableEq, Repr

/-- Modelled from the spec: the framing primitive `utils::byte_buffer`
is not under `src/`; per the spec a fixed-width integer is written as its
native little-endian bytes.  32-bit write. -/
def write_u32 (v : Nat) : List Nat := toBytesLE 4 v

/-- Modelled from the spec: `utils::byte_buffer` 64-bit integer write. -/
def write_u64 (v : Nat) : List Nat := toBytesLE 8 v

/-- Modelled from the spec: `utils::byte_buffer::write_string` writes a
length-prefixed byte sequence (32-bit length prefix, then the raw bytes). -/
def write_string (s : List Nat) : List Nat := toBytesLE 4 s.length ++ s

/-- Modelled from the spec: `utils::byte_buffer` 32-bit read; fails when
fewer than 4 bytes remain, otherwise returns the value and the rest. -/
def read_u32 (bs : List Nat) : Option (Nat × List Nat) :=
  if bs.length < 4 then none else some (fromBytesLE (bs.take 4), bs.drop 4)

/-- Modelled from the spec: `utils::byte_buffer` 64-bit read. -/
def read_u64 (bs : List Nat) : Option (Nat × List Nat) :=
  if bs.length < 8 then none else some (fromBytesLE (bs.take 8), bs.drop 8)

/-- Modelled from the spec: `utils::byte_buffer::read_string` reads a
32-bit length prefix then that many raw bytes. -/
def read_string (bs : List Nat) : Option (List Nat × List Nat) :=
  match read_u32 bs with
  | none => none
  | some (n, rest) =>
      if rest.length < n then none else some (rest.take n, rest.drop n)

/-- Method `profile_info::serialize` (profile_infos.cpp:131-135): writes the
version as a fixed-width 32-bit integer, then the payload as a
length-prefixed string. -/
def profile_info.serialize (i : profile_info) : List Nat :=
  write_u32 i.version ++ write_string i.ddl

/-- The deserializing constructor `profile_info::profile_info(byte_buffer&)`
(profile_infos.cpp:125-129): reads a 32-bit version then a length-prefixed
string; fails when the buffer underflows. -/
def profile_info.deserialize (bs : List Nat) :
    Option (profile_info × List Nat) :=
  match read_u32 bs with
  | none => none
  | some (v, rest) =>
      match read_string rest with
      | none => none
      | some (s, rest2) => some (⟨v, s⟩, rest2)

/-- The wire message built by `distribute_profile_info` and
`distribute_profile_info_to_user`: `user_id` (8 bytes) followed by the
`profile_info` encoding. -/
def encodeMsg (user_id : Nat) (i : profile_info) : List Nat :=
  write_u64 user_id ++ i.serialize

/-- The decoding done by the `"profileInfo"` network handler
(profile_infos.cpp:251-253): read the 8-byte `user_id`, then the
`profile_info`. -/
def decodeMsg (bs : List Nat) : Option (Nat × profile_info) :=
  match read_u64 bs with
  | none => none
  | some (uid, rest) =>
      match profile_info.deserialize rest with
      | none => none
      | some (i, _) => some (uid, i)

/-- Function `load_profile_info` (profile_infos.cpp:25-45).  `fileData` is the
content of `players/user/profile_info` when the file exists.  The source
declares `constexpr auto version_size = sizeof(info.version)` (= 4, of
type `size_t`) but guards with `data.size() < sizeof(version_size)`,
i.e. against `sizeof(size_t)` = 8 on the x64 target, then copies the
first 4 bytes into `version` and the rest into `ddl`. -/
def load_profile_info (fileData : Option (List Nat)) : Option profile_info :=
  match fileData with
  | none => none
  | some data =>
      if data.length < 8 then none
      else some ⟨fromBytesLE (data.take 4), data.drop 4⟩

/-- A connected client as seen through `game::foreach_connected_client`:
its network address and its 64-bit identity (`xuid`). -/
structure client_s where
  address : Nat
  xuid : Nat
deriving DecidableEq, Repr

/-- The registry `profile_map = std::unordered_map<uint64_t, profile_info>`
(profile_infos.cpp:22), modelled as an association list with map
semantics (`upsert` replaces the entry for an existing key). -/
def profile_map := List (Nat × profile_info)

instance : DecidableEq profile_map := by
  unfold profile_map
  infer_instance

/-- Assignment `profiles[user_id] = info`: replace the entry for the key when
present, otherwise insert it. -/
def upsert (id : Nat) (i : profile_info) : profile_map → profile_map
  | [] => [(id, i)]
  | e :: es => if e.1 = id then (id, i) :: es else e :: upsert id i es

/-- Lookup `profiles.find(user_id)` (profile_infos.cpp:215-219): the stored
info for a key, when present. -/
def lookup (id : Nat) (m : profile_map) : Option profile_info :=
  (List.find? (fun e => e.1 = id) m).map (·.2)

/-- Reified side effects of the operations: registry lock
acquire/release (`profile_mapping.access`), a transport send
(`network::send(addr, "profileInfo", payload)`), a registry write
(ingest), and arming the debounced cache update. -/
inductive Event where
  | acquire
  | release
  | send (addr : Nat) (payload : List Nat)
  | write (id : Nat) (i : profile_info)
  | arm
deriving DecidableEq, Repr

/-- The ordered list of payloads that the transport delivers to address
`a` when the trace `tr` is executed. -/
def receivedBy (a : Nat) : List Event → List (List Nat)
  | [] => []
  | Event.send a' p :: es =>
      if a' = a then p :: receivedBy a es else receivedBy a es
  | _ :: es => receivedBy a es

/-- Number of transport sends occurring between a registry lock acquire
and its release; `inside` says whether the trace starts inside the
critical section. -/
def sendsInsideCritical (inside : Bool) : List Event → Nat
  | [] => 0
  | Event.acquire :: es => sendsInsideCritical true es
  | Event.release :: es => sendsInsideCritical false es
  | Event.send _ _ :: es =>
      (if inside then 1 else 0) + sendsInsideCritical inside es
  | _ :: es => sendsInsideCritical inside es

/-- Function `send_profile_info` (profile_infos.cpp:47-50). -/
def send_profile_info (addr : Nat) (buffer : List Nat) : List Event :=
  [Event.send addr buffer]

/-- Function `distribute_profile_info` (profile_infos.cpp:52-69): when `user_id`
is the local identity do nothing; otherwise encode `(user_id, info)`
once and send it to every currently connected client. -/
def distribute_profile_info (localId user_id : Nat) (i : profile_info)
    (conn : List client_s) : List Event :=
  if user_id = localId then []
  else conn.flatMap fun c => send_profile_info c.address (encodeMsg user_id i)

/-- Function `distribute_profile_info_to_user` (profile_infos.cpp:152-159). -/
def distribute_profile_info_to_user (addr user_id : Nat)
    (i : profile_info) : List Event :=
  send_profile_info addr (encodeMsg user_id i)

/-- Function `distribute_profile_infos_to_user` (profile_infos.cpp:161-179):
inside the guarded access, send every registry entry to `addr`; then,
when not running as the server and the local profile file loads, send
the local participant's own info. -/
def distribute_profile_infos_to_user (localId : Nat) (isServer : Bool)
    (fileData : Option (List Nat)) (addr : Nat) (m : profile_map) :
    List Event :=
  Event.acquire ::
    (m.flatMap fun e => distribute_profile_info_to_user addr e.1 e.2) ++
    Event.release ::
    (if isServer then []
     else
       match load_profile_info fileData with
       | some i => distribute_profile_info_to_user addr localId i
       | none => [])

/-- Function `add_profile_info` (profile_infos.cpp:137-150): skip when `user_id`
is the local identity; otherwise upsert the registry entry under the
lock and arm the debounced cache update. -/
def add_profile_info (localId user_id : Nat) (i : profile_info)
    (m : profile_map) : profile_map × List Event :=
  if user_id = localId then (m, [])
  else (upsert user_id i m,
        [Event.acquire, Event.write user_id i, Event.release, Event.arm])

/-- Function `add_and_distribute_profile_info` (profile_infos.cpp:181-187):
full-sync the target address, then ingest, then broadcast. -/
def add_and_distribute_profile_info (localId : Nat) (isServer : Bool)
    (fileData : Option (List Nat)) (addr user_id : Nat) (i : profile_info)
    (conn : List client_s) (m : profile_map) : profile_map × List Event :=
  let sync := distribute_profile_infos_to_user localId isServer fileData addr m
  let added := add_profile_info localId user_id i m
  (added.1, sync ++ added.2 ++ distribute_profile_info localId user_id i conn)

/-- Function `clear_profile_infos` (profile_infos.cpp:189-195). -/
def clear_profile_infos (_m : profile_map) : profile_map × List Event :=
  ([], [Event.acquire, Event.release])

/-- Function `get_connected_client_xuids` (profile_infos.cpp:86-97): the
identities of all currently connected clients. -/
def get_connected_client_xuids (conn : List client_s) : List Nat :=
  conn.map (·.xuid)

/-- Function `clean_cached_profile_infos` (profile_infos.cpp:99-122): when the
server is running, compute the connected identities and erase (under the
lock) every registry entry whose key is not among them. -/
def clean_cached_profile_infos (serverRunning : Bool)
    (conn : List client_s) (m : profile_map) : profile_map × List Event :=
  if serverRunning then
    (m.filter fun e => (get_connected_client_xuids conn).contains e.1,
     [Event.acquire, Event.release])
  else (m, [])

/-- Function `get_profile_info(user_id)` (profile_infos.cpp:202-223): for the
local identity, load the durable file; otherwise look the id up in the
registry under the lock. -/
def get_profile_info (localId : Nat) (fileData : Option (List Nat))
    (user_id : Nat) (m : profile_map) : Option profile_info :=
  if user_id = localId then load_profile_info fileData
  else lookup user_id m

/-- The `"profileInfo"` network handler (profile_infos.cpp:244-256):
ignore messages whose origin is not the party host; otherwise decode
`(user_id, info)` and ingest it through `add_profile_info`. -/
def on_profile_info (localId : Nat) (originIsHost : Bool)
    (data : List Nat) (m : profile_map) : profile_map × List Event :=
  if originIsHost then
    match decodeMsg data with
    | some (uid, i) => add_profile_info localId uid i m
    | none => (m, [])
  else (m, [])

/-- State of the debounced maintenance trigger
(`schedule_pcache_update`, profile_infos.cpp:71-84): the atomic
`update_triggered` flag, the number of one-shot tasks currently
scheduled, and the number of times `PCache_DeleteEntries` has run. -/
structure DebounceState where
  update_triggered : Bool
  pending : Nat
  fired : Nat
deriving DecidableEq, Repr

/-- The initial debounce state: flag clear, nothing scheduled. -/
def debounceInit : DebounceState := ⟨false, 0, 0⟩

/-- One call of `schedule_pcache_update`: return immediately when
running as the server, or when `update_triggered.exchange(true)` finds
the flag already set; otherwise the flag becomes set and a one-shot
delayed task is scheduled. -/
def schedule_pcache_update (isServer : Bool) (s : DebounceState) :
    DebounceState :=
  if isServer then s
  else if s.update_triggered then s
  else ⟨true, s.pending + 1, s.fired⟩

/-- Expiry of the scheduled delay: the pending task runs
`PCache_DeleteEntries` and clears `update_triggered`. -/
def debounceExpire (s : DebounceState) : DebounceState :=
  if s.pending = 0 then s
  else ⟨false, s.pending - 1, s.fired + 1⟩

/-- Iterate `schedule_pcache_update` `n` times in a row in the same role. -/
def armIter (isServer : Bool) : Nat → DebounceState → DebounceState
  | 0, s => s
  | n + 1, s => armIter isServer n (schedule_pcache_update isServer s)

/-- The registry-mutating entry points of the component, used to state
the global registry invariant: a network message delivered to the
`"profileInfo"` handler, a direct `add_profile_info` call, the join
composite, the periodic reconciliation sweep, and the reset. -/
inductive Op where
  | recv (originIsHost : Bool) (data : List Nat)
  | addCall (user_id : Nat) (i : profile_info)
  | joinCall (isServer : Bool) (fileData : Option (List Nat))
      (addr user_id : Nat) (i : profile_info) (conn : List client_s)
  | sweep (serverRunning : Bool) (conn : List client_s)
  | reset

/-- The registry effect of one entry point. -/
def stepOp (localId : Nat) (m : profile_map) : Op → profile_map
  | Op.recv host data => (on_profile_info localId host data m).1
  | Op.addCall uid i => (add_profile_info localId uid i m).1
  | Op.joinCall isServer fileData addr uid i conn =>
      (add_and_distribute_profile_info localId isServer fileData addr uid i
        conn m).1
  | Op.sweep running conn => (clean_cached_profile_infos running conn m).1
  | Op.reset => (clear_profile_infos m).1

/-- The registry reached from the empty map after a sequence of entry
points (the component starts with an empty `profile_mapping`). -/
def runOps (localId : Nat) (ops : List Op) : profile_map :=
  ops.foldl (stepOp localId) []

/-- Whether execution is inside the registry critical section after the
trace, given whether it started inside. -/
def afterEvents (b : Bool) : List Event → Bool
  | [] => b
  | Event.acquire :: es => afterEvents true es
  | Event.release :: es => afterEvents false es
  | _ :: es => afterEvents b es

/-- Expected value: the ordered payloads a full sync delivers to its
target — one message per registry entry, then (when not the server and
the local profile file loads) the local participant's own info. -/
def syncPayloads (localId : Nat) (isServer : Bool)
    (fileData : Option (List Nat)) (m : profile_map) : List (List Nat) :=
  m.map (fun e => encodeMsg e.1 e.2) ++
    (if isServer then []
     else
       match load_profile_info fileData with
       | some li => [encodeMsg localId li]
       | none => [])

/-- Expected value: the payload copies a broadcast of `(user_id, i)`
delivers to address `a` — one per connected client at that address. -/
def broadcastPayloads (user_id : Nat) (i : profile_info)
    (conn : List client_s) (a : Nat) : List (List Nat) :=
  (conn.filter fun c => c.address = a).map fun _ => encodeMsg user_id i

/-! ### Helper lemmas -/

lemma toBytesLE_length (w v : Nat) : (toBytesLE w v).length = w := by
  induction w generalizing v with
  | zero => rfl
  | succ w ih => simp [toBytesLE, ih]

lemma fromBytesLE_toBytesLE (w v : Nat) :
    fromBytesLE (toBytesLE w v) = v % 256 ^ w := by
  induction w generalizing v with
  | zero => simp [toBytesLE, fromBytesLE, Nat.mod_one]
  | succ w ih =>
    have h : v % 256 % 256 = v % 256 := Nat.mod_mod_of_dvd v dvd_rfl
    simp only [toBytesLE, fromBytesLE, ih, h]
    rw [pow_succ, mul_comm (256 ^ w) 256, Nat.mod_mul]

lemma fromBytesLE_toBytesLE_of_lt {w v : Nat} (h : v < 256 ^ w) :
    fromBytesLE (toBytesLE w v) = v := by
  rw [fromBytesLE_toBytesLE, Nat.mod_eq_of_lt h]

lemma lookup_nil (k : Nat) : lookup k ([] : profile_map) = none := rfl

lemma lookup_cons (k : Nat) (e : Nat × profile_info) (l : profile_map) :
    lookup k (e :: l) = if e.1 = k then some e.2 else lookup k l := by
  by_cases h : e.1 = k
  · rw [lookup, List.find?_cons_of_pos, if_pos h]
    · rfl
    · simpa using h
  · rw [lookup, List.find?_cons_of_neg, if_neg h, lookup]
    simpa using h

lemma lookup_upsert (k id : Nat) (i : profile_info) (m : profile_map) :
    lookup k (upsert id i m) = if k = id then some i else lookup k m := by
  induction m with
  | nil =>
    by_cases h : k = id
    · subst h; simp [upsert, lookup_cons]
    · have h' : ¬id = k := fun hh => h hh.symm
      simp [upsert, lookup_cons, h, h', lookup_nil]
  | cons e es ih =>
    by_cases he : e.1 = id
    · by_cases h : k = id
      · subst h
        simp [upsert, he, lookup_cons]
      · have h' : ¬id = k := fun hh => h hh.symm
        have h2 : ¬e.1 = k := he ▸ h'
        simp [upsert, he, lookup_cons, h, h', h2]
    · by_cases h2 : e.1 = k
      · have h : ¬k = id := fun hh => he (h2.trans hh)
        simp [upsert, he, lookup_cons, h2, h]
      · simp [upsert, he, lookup_cons, h2, ih]

lemma lookup_filter (p : Nat → Bool) (id : Nat) (m : profile_map) :
    lookup id (List.filter (fun e => p e.1) m) =
      if p id then lookup id m else none := by
  induction m with
  | nil => by_cases h : p id <;> simp [lookup_nil, h]
  | cons e es ih =>
    by_cases hk : e.1 = id
    · by_cases hp : p e.1
      · have hpid : p id = true := hk ▸ hp
        simp [List.filter_cons, hp, lookup_cons, hk, hpid]
      · have hpid : ¬p id = true := hk ▸ hp
        simp [List.filter_cons, hp, ih, hpid]
    · by_cases hp : p e.1 <;>
        simp [List.filter_cons, hp, lookup_cons, hk, ih]

lemma read_u32_append (v : Nat) (rest : List Nat) (hv : v < 2 ^ 32) :
    read_u32 (write_u32 v ++ rest) = some (v, rest) := by
  have h : (toBytesLE 4 v).length = 4 := toBytesLE_length 4 v
  have h256 : (256 : Nat) ^ 4 = 2 ^ 32 := by norm_num
  rw [read_u32, write_u32, if_neg, List.take_left' h, List.drop_left' h,
    fromBytesLE_toBytesLE_of_lt]
  · rw [h256]; exact hv
  · simp [h]

lemma read_string_append (s rest : List Nat) (hl : s.length < 2 ^ 32) :
    read_string (write_string s ++ rest) = some (s, rest) := by
  have h : write_string s ++ rest = write_u32 s.length ++ (s ++ rest) := by
    simp [write_string, write_u32]
  rw [read_string, h, read_u32_append _ _ hl]
  simp [List.take_left, List.drop_left]

lemma receivedBy_append (a : Nat) (l1 l2 : List Event) :
    receivedBy a (l1 ++ l2) = receivedBy a l1 ++ receivedBy a l2 := by
  induction l1 with
  | nil => rfl
  | cons e es ih =>
    cases e with
    | send a' p =>
      by_cases h : a' = a <;> simp [receivedBy, h, ih]
    | acquire => simpa [receivedBy] using ih
    | release => simpa [receivedBy] using ih
    | write id i => simpa [receivedBy] using ih
    | arm => simpa [receivedBy] using ih

lemma receivedBy_syncLoop (a : Nat) (m : profile_map) :
    receivedBy a (m.flatMap fun e =>
        distribute_profile_info_to_user a e.1 e.2) =
      m.map fun e => encodeMsg e.1 e.2 := by
  induction m with
  | nil => rfl
  | cons e es ih =>
    rw [List.flatMap_cons, receivedBy_append, ih,
      distribute_profile_info_to_user, send_profile_info]
    simp [receivedBy]

lemma receivedBy_broadcast (a user_id : Nat) (i : profile_info)
    (conn : List client_s) :
    receivedBy a (conn.flatMap fun c =>
        send_profile_info c.address (encodeMsg user_id i)) =
      broadcastPayloads user_id i conn a := by
  induction conn with
  | nil => rfl
  | cons c cs ih =>
    rw [List.flatMap_cons, receivedBy_append, ih, send_profile_info]
    by_cases h : c.address = a <;>
      simp [receivedBy, h, broadcastPayloads, List.filter_cons]

lemma afterEvents_append (b : Bool) (l1 l2 : List Event) :
    afterEvents b (l1 ++ l2) = afterEvents (afterEvents b l1) l2 := by
  induction l1 generalizing b with
  | nil => rfl
  | cons e es ih => cases e <;> simp [afterEvents, ih]

lemma sendsInsideCritical_append (b : Bool) (l1 l2 : List Event) :
    sendsInsideCritical b (l1 ++ l2) =
      sendsInsideCritical b l1 +
        sendsInsideCritical (afterEvents b l1) l2 := by
  induction l1 generalizing b with
  | nil => simp [sendsInsideCritical, afterEvents]
  | cons e es ih =>
    cases e <;> simp [sendsInsideCritical, afterEvents, ih, Nat.add_assoc]

lemma afterEvents_syncLoop (b : Bool) (a : Nat) (m : profile_map) :
    afterEvents b (m.flatMap fun e =>
      distribute_profile_info_to_user a e.1 e.2) = b := by
  induction m with
  | nil => rfl
  | cons e es ih =>
    rw [List.flatMap_cons, afterEvents_append,
      distribute_profile_info_to_user, send_profile_info]
    simpa [afterEvents] using ih

lemma sendsInsideCritical_syncLoop_true (a : Nat) (m : profile_map) :
    sendsInsideCritical true (m.flatMap fun e =>
      distribute_profile_info_to_user a e.1 e.2) = m.length := by
  induction m with
  | nil => rfl
  | cons e es ih =>
    rw [List.flatMap_cons, sendsInsideCritical_append,
      distribute_profile_info_to_user, send_profile_info]
    simp [sendsInsideCritical, afterEvents, ih]
    omega

lemma sendsInsideCritical_bcast_outside (user_id : Nat) (i : profile_info)
    (conn : List client_s) :
    sendsInsideCritical false (conn.flatMap fun c =>
      send_profile_info c.address (encodeMsg user_id i)) = 0 := by
  induction conn with
  | nil => rfl
  | cons c cs ih =>
    rw [List.flatMap_cons, sendsInsideCritical_append, send_profile_info]
    simpa [sendsInsideCritical, afterEvents] using ih

/-- The trailing own-info part of a full sync (after the lock is
released) contributes no in-critical-section sends and does not change
the critical-section depth. -/
lemma syncTail_outside (localId : Nat) (isServer : Bool)
    (fileData : Option (List Nat)) (addr : Nat) :
    sendsInsideCritical false
        (if isServer then []
         else
           match load_profile_info fileData with
           | some li => distribute_profile_info_to_user addr localId li
           | none => []) = 0 ∧
      afterEvents false
        (if isServer then []
         else
           match load_profile_info fileData with
           | some li => distribute_profile_info_to_user addr localId li
           | none => []) = false := by
  cases isServer
  · cases load_profile_info fileData <;>
      simp [distribute_profile_info_to_user, send_profile_info,
        sendsInsideCritical, afterEvents]
  · simp [sendsInsideCritical, afterEvents]

lemma receivedBy_syncTail (localId : Nat) (isServer : Bool)
    (fileData : Option (List Nat)) (addr : Nat) :
    receivedBy addr
        (if isServer then []
         else
           match load_profile_info fileData with
           | some li => distribute_profile_info_to_user addr localId li
           | none => []) =
      (if isServer then []
       else
         match load_profile_info fileData with
         | some li => [encodeMsg localId li]
         | none => []) := by
  cases isServer
  · cases load_profile_info fileData <;>
      simp [distribute_profile_info_to_user, send_profile_info, receivedBy]
  · simp [receivedBy]

lemma sendsInsideCritical_acquire (es : List Event) :
    sendsInsideCritical false (Event.acquire :: es) =
      sendsInsideCritical true es := rfl

lemma sendsInsideCritical_release_of_true (es : List Event) :
    sendsInsideCritical true (Event.release :: es) =
      sendsInsideCritical false es := rfl

lemma afterEvents_acquire (es : List Event) :
    afterEvents false (Event.acquire :: es) = afterEvents true es := rfl

lemma afterEvents_release (b : Bool) (es : List Event) :
    afterEvents b (Event.release :: es) = afterEvents false es := rfl

lemma receivedBy_acquire (a : Nat) (es : List Event) :
    receivedBy a (Event.acquire :: es) = receivedBy a es := rfl

lemma receivedBy_release (a : Nat) (es : List Event) :
    receivedBy a (Event.release :: es) = receivedBy a es := rfl

lemma sendsInside_full_sync (localId : Nat) (isServer : Bool)
    (fileData : Option (List Nat)) (addr : Nat) (m : profile_map) :
    sendsInsideCritical false
        (distribute_profile_infos_to_user localId isServer fileData addr m) =
      m.length ∧
      afterEvents false
        (distribute_profile_infos_to_user localId isServer fileData addr m) =
      false := by
  rw [distribute_profile_infos_to_user, List.cons_append]
  constructor
  · rw [sendsInsideCritical_acquire, sendsInsideCritical_append,
      sendsInsideCritical_syncLoop_true, afterEvents_syncLoop,
      sendsInsideCritical_release_of_true,
      (syncTail_outside localId isServer fileData addr).1, Nat.add_zero]
  · rw [afterEvents_acquire, afterEvents_append, afterEvents_syncLoop,
      afterEvents_release, (syncTail_outside localId isServer fileData addr).2]

lemma sendsInside_add (localId user_id : Nat) (i : profile_info)
    (m : profile_map) :
    sendsInsideCritical false (add_profile_info localId user_id i m).2 = 0 ∧
      afterEvents false (add_profile_info localId user_id i m).2 = false := by
  rw [add_profile_info]
  by_cases h : user_id = localId <;>
    simp [h, sendsInsideCritical, afterEvents]

lemma sendsInside_bcast (localId user_id : Nat) (i : profile_info)
    (conn : List client_s) :
    sendsInsideCritical false
      (distribute_profile_info localId user_id i conn) = 0 := by
  rw [distribute_profile_info]
  by_cases h : user_id = localId
  · simp [h, sendsInsideCritical]
  · simpa [h] using sendsInsideCritical_bcast_outside user_id i conn

lemma receivedBy_full_sync (localId : Nat) (isServer : Bool)
    (fileData : Option (List Nat)) (addr : Nat) (m : profile_map) :
    receivedBy addr
        (distribute_profile_infos_to_user localId isServer fileData addr m) =
      syncPayloads localId isServer fileData m := by
  rw [distribute_profile_infos_to_user, syncPayloads, List.cons_append,
    receivedBy_acquire, receivedBy_append, receivedBy_syncLoop,
    receivedBy_release, receivedBy_syncTail]

/-! ### Claim theorems -/

/-- C8: serializing any `ProfileInfo` (version as a fixed-width 32-bit
integer, payload as a length-prefixed string) and decoding the buffer
with the deserializing constructor yields the original value, the
buffer fully consumed. -/
theorem serialize_deserialize_roundtrip (i : profile_info)
    (hv : i.version < 2 ^ 32) (hl : i.ddl.length < 2 ^ 32) :
    profile_info.deserialize i.serialize = some (i, []) := by
  have h : i.serialize = write_u32 i.version ++ (write_string i.ddl ++ []) := by
    simp [profile_info.serialize]
  rw [profile_info.deserialize, h, read_u32_append _ _ hv]
  simp only
  rw [read_string_append _ _ hl]

/-- C8 witness: the round-trip at `version = 7`,
`payload = [0x01, 0x02, 0x03]`. -/
theorem serialize_deserialize_roundtrip_witness :
    (7 < 2 ^ 32 ∧ ([1, 2, 3] : List Nat).length < 2 ^ 32) ∧
      profile_info.deserialize (profile_info.serialize ⟨7, [1, 2, 3]⟩) =
        some (⟨7, [1, 2, 3]⟩, []) :=
  ⟨⟨by norm_num, by norm_num⟩,
    serialize_deserialize_roundtrip ⟨7, [1, 2, 3]⟩ (by norm_num) (by norm_num)⟩

/-- C1: evaluation of `load_profile_info` at the failing input — a
stored blob of 5 bytes (version `7` encoded in 4 bytes, then a 1-byte
payload).  Its length is at least 4, so per the claim it should parse
to `ProfileInfo{version := 7, payload := [1]}`, but the code guards
with `data.size() < sizeof(version_size)` — `sizeof(size_t)` = 8 on the
x64 target — and returns absent. -/
theorem load_profile_info_truncation_bug :
    4 ≤ ([7, 0, 0, 0, 1] : List Nat).length ∧
      load_profile_info (some [7, 0, 0, 0, 1]) = none ∧
      load_profile_info (some [7, 0, 0, 0, 1, 2, 3, 4]) =
        some ⟨7, [1, 2, 3, 4]⟩ := by
  refine ⟨by norm_num, rfl, ?_⟩
  decide

/-- C7: for every identity different from the local one, ingesting
`(user_id, info)` and then requesting `user_id` returns exactly the
ingested info, whatever the registry held before and whatever the local
profile file holds. -/
theorem add_then_get_roundtrip (localId user_id : Nat) (i : profile_info)
    (m : profile_map) (fileData : Option (List Nat))
    (h : user_id ≠ localId) :
    get_profile_info localId fileData user_id
      (add_profile_info localId user_id i m).1 = some i := by
  rw [get_profile_info, if_neg h, add_profile_info, if_neg h]
  simp [lookup_upsert]

/-- C7 witness: ingest `(2, {version 7, payload [1, 2, 3]})` with local
identity 1 into the empty registry, then look 2 up. -/
theorem add_then_get_roundtrip_witness :
    (2 : Nat) ≠ 1 ∧
      get_profile_info 1 none 2
        (add_profile_info 1 2 ⟨7, [1, 2, 3]⟩ []).1 = some ⟨7, [1, 2, 3]⟩ :=
  ⟨by decide, add_then_get_roundtrip 1 2 ⟨7, [1, 2, 3]⟩ [] none (by decide)⟩

/-- C6: with the server running, the reconciliation sweep leaves
`lookup id` unchanged for every identity in the connection set and
absent for every identity outside it, and its trace delivers no message
to any address (no network sends; only the registry is touched). -/
theorem clean_cached_profile_infos_spec (running : Bool)
    (conn : List client_s) (m : profile_map) (h : running = true) :
    (∀ id, lookup id (clean_cached_profile_infos running conn m).1 =
        if id ∈ get_connected_client_xuids conn then lookup id m
        else none) ∧
      ∀ a, receivedBy a (clean_cached_profile_infos running conn m).2 = [] := by
  subst h
  constructor
  · intro id
    rw [clean_cached_profile_infos, if_pos rfl]
    rw [show (fun e : Nat × profile_info =>
        (get_connected_client_xuids conn).contains e.1) =
      (fun e : Nat × profile_info =>
        ((get_connected_client_xuids conn).contains e.1 : Bool)) from rfl]
    rw [lookup_filter (fun k => (get_connected_client_xuids conn).contains k)]
    by_cases hm : id ∈ get_connected_client_xuids conn <;> simp [hm]
  · intro a
    rw [clean_cached_profile_infos, if_pos rfl]
    rfl

/-- C6 witness: with the server running, connected identities `{2}` and
registry `{2 ↦ i, 3 ↦ j}`, entry 2 is retained unchanged, entry 3 is
purged, and no address receives anything. -/
theorem clean_cached_profile_infos_spec_witness :
    (true = true) ∧
      (∀ id, lookup id (clean_cached_profile_infos true [⟨9, 2⟩]
          [(2, ⟨7, [1]⟩), (3, ⟨8, [2]⟩)]).1 =
        if id ∈ get_connected_client_xuids [⟨9, 2⟩] then
          lookup id [(2, ⟨7, [1]⟩), (3, ⟨8, [2]⟩)]
        else none) ∧
      ∀ a, receivedBy a (clean_cached_profile_infos true [⟨9, 2⟩]
        [(2, ⟨7, [1]⟩), (3, ⟨8, [2]⟩)]).2 = [] :=
  ⟨rfl, clean_cached_profile_infos_spec true [⟨9, 2⟩]
    [(2, ⟨7, [1]⟩), (3, ⟨8, [2]⟩)] rfl⟩

/-- C10: a `"profileInfo"` message whose origin is not the party host
is dropped before decoding: the handler leaves the registry unchanged
and produces no effect at all. -/
theorem on_profile_info_ignores_non_host (localId : Nat) (host : Bool)
    (data : List Nat) (m : profile_map) (h : host = false) :
    on_profile_info localId host data m = (m, []) := by
  subst h
  rfl

/-- C10 witness: a non-host message over a registry with one entry. -/
theorem on_profile_info_ignores_non_host_witness :
    (false = false) ∧
      on_profile_info 1 false [0, 1, 2] [(2, ⟨7, [1]⟩)] =
        ([(2, ⟨7, [1]⟩)], []) :=
  ⟨rfl, on_profile_info_ignores_non_host 1 false [0, 1, 2] [(2, ⟨7, [1]⟩)] rfl⟩

lemma armIter_triggered (n p f : Nat) :
    armIter false n ⟨true, p, f⟩ = ⟨true, p, f⟩ := by
  induction n with
  | zero => rfl
  | succ n ih =>
    rw [armIter, schedule_pcache_update]
    simpa using ih

lemma armIter_server (n : Nat) (s : DebounceState) :
    armIter true n s = s := by
  induction n with
  | zero => rfl
  | succ n ih =>
    rw [armIter, schedule_pcache_update]
    simpa using ih

/-- C4: arming the debounced trigger `n ≥ 1` times while not hosting
schedules exactly one delayed task; when the delay expires the
maintenance action has fired exactly once, nothing further is pending,
and the flag is clear so a subsequent arm schedules again; arming any
number of times while hosting leaves the state untouched (zero
firings). -/
theorem schedule_pcache_update_debounce (n : Nat) (h : 1 ≤ n) :
    (armIter false n debounceInit).pending = 1 ∧
      (armIter false n debounceInit).fired = 0 ∧
      debounceExpire (armIter false n debounceInit) =
        ⟨false, 0, 1⟩ ∧
      (schedule_pcache_update false
        (debounceExpire (armIter false n debounceInit))).pending = 1 ∧
      armIter true n debounceInit = debounceInit := by
  obtain ⟨k, rfl⟩ : ∃ k, n = k + 1 := ⟨n - 1, by omega⟩
  have harm : armIter false (k + 1) debounceInit = ⟨true, 1, 0⟩ := by
    rw [armIter, debounceInit, schedule_pcache_update]
    simpa using armIter_triggered k 1 0
  refine ⟨by rw [harm], by rw [harm], by rw [harm]; rfl, ?_, armIter_server _ _⟩
  rw [harm]
  rfl

/-- C4 witness: three arms while not hosting, then expiry, then one
re-arm; and three arms while hosting. -/
theorem schedule_pcache_update_debounce_witness :
    1 ≤ 3 ∧
      ((armIter false 3 debounceInit).pending = 1 ∧
        (armIter false 3 debounceInit).fired = 0 ∧
        debounceExpire (armIter false 3 debounceInit) = ⟨false, 0, 1⟩ ∧
        (schedule_pcache_update false
          (debounceExpire (armIter false 3 debounceInit))).pending = 1 ∧
        armIter true 3 debounceInit = debounceInit) :=
  ⟨by decide, schedule_pcache_update_debounce 3 (by decide)⟩

lemma add_profile_info_preserves (localId user_id : Nat)
    (i : profile_info) (m : profile_map)
    (h : lookup localId m = none) :
    lookup localId (add_profile_info localId user_id i m).1 = none := by
  rw [add_profile_info]
  by_cases hu : user_id = localId
  · simpa [hu] using h
  · have h' : ¬localId = user_id := fun hh => hu hh.symm
    simp [hu, lookup_upsert, h', h]

lemma stepOp_preserves (localId : Nat) (m : profile_map) (op : Op)
    (h : lookup localId m = none) :
    lookup localId (stepOp localId m op) = none := by
  cases op with
  | recv host data =>
    rw [stepOp, on_profile_info]
    cases host
    · simpa using h
    · cases decodeMsg data with
      | none => simpa using h
      | some p => simpa using add_profile_info_preserves localId p.1 p.2 m h
  | addCall uid i => exact add_profile_info_preserves localId uid i m h
  | joinCall isServer fileData addr uid i conn =>
    rw [stepOp, add_and_distribute_profile_info]
    exact add_profile_info_preserves localId uid i m h
  | sweep running conn =>
    rw [stepOp, clean_cached_profile_infos]
    cases running
    · simpa using h
    · rw [if_pos rfl]
      rw [lookup_filter
        (fun k => (get_connected_client_xuids conn).contains k)]
      simp [h]
  | reset => rfl

/-- C9: starting from the empty registry, after any sequence of entry
points — network messages, direct ingests, join composites, sweeps and
resets — the registry never contains an entry keyed by the local
identity. -/
theorem registry_never_contains_local (localId : Nat) (ops : List Op) :
    lookup localId (runOps localId ops) = none := by
  rw [runOps]
  have h : ∀ m : profile_map, lookup localId m = none →
      lookup localId (ops.foldl (stepOp localId) m) = none := by
    induction ops with
    | nil => intro m hm; simpa using hm
    | cons op ops ih =>
      intro m hm
      exact ih _ (stepOp_preserves localId m op hm)
  exact h [] (lookup_nil localId)

/-- C2 counterexample: with local identity 1, broadcasting `(5, info)`
while the connected set holds a client of identity 5 at address 9
delivers the message to that very client — the broadcast does not
filter the peer whose identity equals `user_id`, so the claim that this
peer receives no message is false. -/
theorem distribute_profile_info_echoes_to_subject :
    client_s.xuid ⟨9, 5⟩ = 5 ∧
      receivedBy 9 (distribute_profile_info 1 5 ⟨7, [1, 2, 3]⟩ [⟨9, 5⟩]) =
        [encodeMsg 5 ⟨7, [1, 2, 3]⟩] :=
  ⟨rfl, by decide⟩

/-- C2 amended: broadcasting with `user_id` equal to the local identity
sends zero messages; when `user_id` differs from the local identity,
every currently connected client receives the encoded message —
including any client whose identity equals `user_id` (the code does not
filter the subject peer out of the broadcast). -/
theorem distribute_profile_info_spec (localId user_id : Nat)
    (i : profile_info) (conn : List client_s) :
    (user_id = localId →
        distribute_profile_info localId user_id i conn = []) ∧
      (user_id ≠ localId → ∀ c ∈ conn,
        encodeMsg user_id i ∈
          receivedBy c.address
            (distribute_profile_info localId user_id i conn)) := by
  constructor
  · intro h
    rw [distribute_profile_info, if_pos h]
  · intro h c hc
    rw [distribute_profile_info, if_neg h, receivedBy_broadcast,
      broadcastPayloads]
    exact List.mem_map.mpr ⟨c, List.mem_filter.mpr ⟨hc, by simp⟩, rfl⟩

/-- C2 amended witness: with local identity 1, the client of identity 5
at address 9 receives the broadcast for `user_id = 5`. -/
theorem distribute_profile_info_spec_witness :
    ((5 : Nat) ≠ 1 ∧ (⟨9, 5⟩ : client_s) ∈ ([⟨9, 5⟩] : List client_s)) ∧
      encodeMsg 5 ⟨7, [1]⟩ ∈
        receivedBy (client_s.address ⟨9, 5⟩)
          (distribute_profile_info 1 5 ⟨7, [1]⟩ [⟨9, 5⟩]) :=
  ⟨⟨by decide, by simp⟩,
    (distribute_profile_info_spec 1 5 ⟨7, [1]⟩ [⟨9, 5⟩]).2 (by decide) _
      (by simp)⟩

/-- C3 counterexample: with a single registry entry, the full sync to a
user performs its per-entry transport send inside the registry critical
section — one send between the lock acquire and its release, where the
claim requires zero. -/
theorem full_sync_sends_inside_critical_section :
    sendsInsideCritical false
        (distribute_profile_infos_to_user 1 true none 9 [(2, ⟨7, [1]⟩)]) =
      1 ∧ (1 : Nat) ≠ 0 :=
  ⟨by decide, by decide⟩

/-- C3 amended: the full sync (`distribute_profile_infos_to_user`, and
hence the join composite that begins with one) performs exactly one
transport send per registry entry inside the guarded access to
`profile_mapping`; every other entry point — broadcast, ingest, sweep,
reset, and the network handler — performs all of its sends outside the
critical section. -/
theorem sends_inside_critical_spec (localId user_id : Nat)
    (isServer : Bool) (fileData : Option (List Nat)) (addr : Nat)
    (i : profile_info) (conn : List client_s) (m : profile_map)
    (host : Bool) (data : List Nat) (running : Bool) :
    sendsInsideCritical false
        (distribute_profile_infos_to_user localId isServer fileData addr m) =
      m.length ∧
      sendsInsideCritical false
          (add_and_distribute_profile_info localId isServer fileData addr
            user_id i conn m).2 = m.length ∧
      sendsInsideCritical false
          (distribute_profile_info localId user_id i conn) = 0 ∧
      sendsInsideCritical false (add_profile_info localId user_id i m).2 =
        0 ∧
      sendsInsideCritical false
          (clean_cached_profile_infos running conn m).2 = 0 ∧
      sendsInsideCritical false (clear_profile_infos m).2 = 0 ∧
      sendsInsideCritical false (on_profile_info localId host data m).2 =
        0 := by
  refine ⟨(sendsInside_full_sync localId isServer fileData addr m).1, ?_,
    sendsInside_bcast localId user_id i conn,
    (sendsInside_add localId user_id i m).1, ?_, rfl, ?_⟩
  · rw [add_and_distribute_profile_info]
    simp only
    rw [sendsInsideCritical_append, sendsInsideCritical_append,
      afterEvents_append,
      (sendsInside_full_sync localId isServer fileData addr m).1,
      (sendsInside_full_sync localId isServer fileData addr m).2,
      (sendsInside_add localId user_id i m).1,
      (sendsInside_add localId user_id i m).2,
      sendsInside_bcast localId user_id i conn, Nat.add_zero]
  · cases running <;> simp [clean_cached_profile_infos, sendsInsideCritical]
  · rw [on_profile_info]
    cases host
    · rfl
    · cases decodeMsg data with
      | none => rfl
      | some p => simpa using (sendsInside_add localId p.1 p.2 m).1

/-- C5: the join composite emits its events in order — full sync to the
target address first, then the registry write for the newcomer, then
the broadcast.  The trace splits at the registry write: in the prefix
the target receives exactly one full-sync message per pre-existing
registry entry (followed by the local own-info message when not the
server), and in the suffix exactly the broadcast copies for `user_id`. -/
theorem add_and_distribute_sync_before_ingest (localId user_id : Nat)
    (isServer : Bool) (fileData : Option (List Nat)) (addr : Nat)
    (i : profile_info) (conn : List client_s) (m : profile_map)
    (h : user_id ≠ localId) :
    ∃ t1 t2,
      (add_and_distribute_profile_info localId isServer fileData addr
          user_id i conn m).2 = t1 ++ Event.write user_id i :: t2 ∧
        receivedBy addr t1 = syncPayloads localId isServer fileData m ∧
        receivedBy addr t2 = broadcastPayloads user_id i conn addr := by
  refine ⟨distribute_profile_infos_to_user localId isServer fileData addr m ++
      [Event.acquire],
    Event.release :: Event.arm ::
      distribute_profile_info localId user_id i conn, ?_, ?_, ?_⟩
  · rw [add_and_distribute_profile_info]
    simp only
    rw [add_profile_info, if_neg h]
    simp
  · rw [receivedBy_append, receivedBy_full_sync]
    simp [receivedBy]
  · rw [receivedBy_release]
    show receivedBy addr (distribute_profile_info localId user_id i conn) = _
    rw [distribute_profile_info, if_neg h, receivedBy_broadcast]

/-- C5 witness: joining identity 2 (local identity 1, hosting, empty
registry, no connected clients). -/
theorem add_and_distribute_sync_before_ingest_witness :
    (2 : Nat) ≠ 1 ∧
      ∃ t1 t2,
        (add_and_distribute_profile_info 1 true none 9 2 ⟨7, [1]⟩ [] []).2 =
            t1 ++ Event.write 2 ⟨7, [1]⟩ :: t2 ∧
          receivedBy 9 t1 = syncPayloads 1 true none [] ∧
          receivedBy 9 t2 = broadcastPayloads 2 ⟨7, [1]⟩ [] 9 :=
  ⟨by decide,
    add_and_distribute_sync_before_ingest 1 2 true none 9 ⟨7, [1]⟩ [] []
      (by decide)⟩
